import Mathlib

/-!
Shallow embedding of `petl/io/sources.py` and `petl/io/html.py`.

The source layer models each source class's `open_` method; file-like
handles written through the HTML renderer are modelled as accumulated
text. Python exceptions are modelled with `Except`; in-memory buffers
(`StringIO`/`BytesIO`) carry their content as a list of characters
together with the stream position.
-/

/-- Python `c in s` on a string: membership of a character. -/
def strContains (s : String) (c : Char) : Bool := s.data.contains c

/-- Python `s.startswith(p)`. -/
def strStartsWith (s p : String) : Bool := p.data.isPrefixOf s.data

/-- Python `s.endswith(p)`. -/
def strEndsWith (s p : String) : Bool := p.data.isSuffixOf s.data

/-- Errors raised in the embedded code; each constructor stands for one
distinct Python exception raised by `petl/io/sources.py` or by iteration
(`StopIteration` from `next` on an exhausted iterator, `TypeError` from
evaluating membership in `None`). -/
inductive PyError where
  | sourceReadOnly
  | sourceWriteOnly
  | noStringData
  | typeErrorNotIterable
  | stopIteration
deriving DecidableEq

/-- Kind tag of an in-memory buffer: `BytesIO` versus `StringIO`. -/
inductive BufKind where
  | bytesIO
  | stringIO
deriving DecidableEq

/-- An in-memory buffer (`StringIO`/`BytesIO`): its kind, content and the
current stream position. -/
structure Buffer where
  kind : BufKind
  content : List Char
  pos : Nat
deriving DecidableEq

/-- Writing to a buffer overwrites from the current position and extends the
content, advancing the position, as `StringIO.write`/`BytesIO.write` do. -/
def Buffer.write (b : Buffer) (data : List Char) : Buffer :=
  { kind := b.kind,
    content := b.content.take b.pos ++ data ++ b.content.drop (b.pos + data.length),
    pos := b.pos + data.length }

/-- The buffer's `getvalue`: the whole content, independent of position. -/
def Buffer.getvalue (b : Buffer) : List Char := b.content

/-- State of a `StringSource` instance: the string supplied at construction
(`self.s`, if any) and the backing buffer (`self.buffer`, if any). -/
structure StringSource where
  s : Option (List Char)
  buffer : Option Buffer
deriving DecidableEq

/-- Translation of `StringSource.open_`. Branches follow the source: a mode
containing `r` rebuilds the buffer from `self.s` (raising when `self.s` is
`None`); a mode containing `w` (and no `r`) closes and replaces the buffer
with a fresh empty one; a mode containing `a` (and no `r`/`w`) keeps an
existing buffer, and when the buffer is `None` the source evaluates
`'b' in self.buffer`, which raises `TypeError` because `None` is not
iterable; any other mode falls through and yields `self.buffer` as is.
The returned state's buffer is the object yielded to the `with` block. -/
def StringSource.open_ (src : StringSource) (mode : String) : Except PyError StringSource :=
  if strContains mode 'r' then
    match src.s with
    | some s0 =>
      if strContains mode 'b' then
        Except.ok { s := src.s, buffer := some ⟨BufKind.bytesIO, s0, 0⟩ }
      else
        Except.ok { s := src.s, buffer := some ⟨BufKind.stringIO, s0, 0⟩ }
    | none => Except.error PyError.noStringData
  else if strContains mode 'w' then
    if strContains mode 'b' then
      Except.ok { s := src.s, buffer := some ⟨BufKind.bytesIO, [], 0⟩ }
    else
      Except.ok { s := src.s, buffer := some ⟨BufKind.stringIO, [], 0⟩ }
  else if strContains mode 'a' then
    match src.buffer with
    | some _ => Except.ok src
    | none => Except.error PyError.typeErrorNotIterable
  else
    Except.ok src

/-- Writing through the handle yielded by `open_` mutates the instance's
backing buffer. -/
def StringSource.write (src : StringSource) (data : List Char) : StringSource :=
  { s := src.s, buffer := src.buffer.map (fun b => b.write data) }

/-- Translation of `StringSource.getvalue`: the buffer's value when a buffer
exists, nothing otherwise (a buffer object is always truthy in Python). -/
def StringSource.getvalue (src : StringSource) : Option (List Char) :=
  src.buffer.map Buffer.getvalue

/-- The handle yielded by the standard-stream and URL sources. -/
inductive StdHandle where
  | stdinH
  | stdoutH
  | urlH
deriving DecidableEq

/-- Translation of `StdinSource.open_`: any mode not starting with `r`
raises `Exception('source is read-only')`, otherwise `sys.stdin` is
yielded. -/
def StdinSource.open_ (mode : String) : Except PyError StdHandle :=
  if !(strStartsWith mode "r") then Except.error PyError.sourceReadOnly
  else Except.ok StdHandle.stdinH

/-- Translation of `StdoutSource.open_`: any mode starting with `r` raises
`Exception('source is write-only')`, otherwise `sys.stdout` is yielded. -/
def StdoutSource.open_ (mode : String) : Except PyError StdHandle :=
  if strStartsWith mode "r" then Except.error PyError.sourceWriteOnly
  else Except.ok StdHandle.stdoutH

/-- Translation of `URLSource.open_`: any mode not starting with `r` raises
`Exception('source is read-only')`, otherwise the response stream of
`urlopen` is yielded. -/
def URLSource.open_ (mode : String) : Except PyError StdHandle :=
  if !(strStartsWith mode "r") then Except.error PyError.sourceReadOnly
  else Except.ok StdHandle.urlH

/-- A non-`None`, non-string source argument: whether it has a callable
`open_` attribute, and its `repr` used in the error message. -/
structure ObjValue where
  hasCallableOpenAttr : Bool
  reprStr : String
deriving DecidableEq

/-- The argument given to `read_source_from_arg`/`write_source_from_arg`:
`None`, a string, or any other object. -/
inductive SourceArg where
  | noneArg
  | strArg (s : String)
  | objArg (o : ObjValue)
deriving DecidableEq

/-- The resolved source returned by the two factory functions. -/
inductive Source where
  | fileSource (filename : String)
  | gzipSource (filename : String)
  | bz2Source (filename : String)
  | stdinSource
  | stdoutSource
  | urlSource (s : String)
  | objSource (o : ObjValue)
deriving DecidableEq

/-- The `_invalid_source_msg` template applied to the argument's `repr`. -/
def invalid_source_msg (r : String) : String :=
  "invalid source argument, expected None or a string or an object implementing open_(), found "
    ++ r

/-- Translation of `read_source_from_arg`. -/
def read_source_from_arg : SourceArg → Except String Source
  | SourceArg.noneArg => Except.ok Source.stdinSource
  | SourceArg.strArg s =>
    if strStartsWith s "http://" || strStartsWith s "https://" || strStartsWith s "ftp://" then
      Except.ok (Source.urlSource s)
    else if strEndsWith s ".gz" || strEndsWith s ".bgz" then
      Except.ok (Source.gzipSource s)
    else if strEndsWith s ".bz2" then
      Except.ok (Source.bz2Source s)
    else
      Except.ok (Source.fileSource s)
  | SourceArg.objArg o =>
    if o.hasCallableOpenAttr then Except.ok (Source.objSource o)
    else Except.error (invalid_source_msg o.reprStr)

/-- Translation of `write_source_from_arg`. -/
def write_source_from_arg : SourceArg → Except String Source
  | SourceArg.noneArg => Except.ok Source.stdoutSource
  | SourceArg.strArg s =>
    if strEndsWith s ".gz" || strEndsWith s ".bgz" then
      Except.ok (Source.gzipSource s)
    else if strEndsWith s ".bz2" then
      Except.ok (Source.bz2Source s)
    else
      Except.ok (Source.fileSource s)
  | SourceArg.objArg o =>
    if o.hasCallableOpenAttr then Except.ok (Source.objSource o)
    else Except.error (invalid_source_msg o.reprStr)

/-- A cell value of the embedded row model: text, an integer, or a boolean.
Booleans are a numeric subtype in the host representation, which
`isNumberType` reflects. -/
inductive Value where
  | str (s : String)
  | int (n : Int)
  | bool (b : Bool)
deriving DecidableEq

/-- Python `str` applied to a cell value (the default `representation`). -/
def text_type : Value → String
  | Value.str s => s
  | Value.int n => toString n
  | Value.bool b => cond b "True" "False"

/-- Python `isinstance(v, number_types)`: booleans are a subtype of `int`,
so they satisfy this check. -/
def isNumberType : Value → Bool
  | Value.str _ => false
  | Value.int _ => true
  | Value.bool _ => true

/-- Python `isinstance(v, bool)`. -/
def isBoolType : Value → Bool
  | Value.bool _ => true
  | _ => false

/-- One iteration of the cell loop in `_write_row`: a non-boolean numeric
value is emitted right-aligned, any other value as a plain cell. -/
def _write_cell (v : Value) (lineterminator : String) (rep : Value → String) : String :=
  let r := rep v
  if isNumberType v && !(isBoolType v) then
    "<td style='text-align: right'>" ++ r ++ "</td>" ++ lineterminator
  else
    "<td>" ++ r ++ "</td>" ++ lineterminator

/-- Translation of `_write_row`: the text written for one data row. -/
def _write_row (row : List Value) (lineterminator : String) (rep : Value → String) : String :=
  "<tr>" ++ lineterminator
    ++ String.join (row.map (fun v => _write_cell v lineterminator rep))
    ++ "</tr>" ++ lineterminator

/-- Translation of `_write_begin`: the text written before the data rows. -/
def _write_begin (flds : List Value) (lineterminator : String) (caption : Option String) :
    String :=
  "<table class='petl'>" ++ lineterminator
    ++ (match caption with
        | some c => "<caption>" ++ c ++ "</caption>" ++ lineterminator
        | none => "")
    ++ "<thead>" ++ lineterminator
    ++ "<tr>" ++ lineterminator
    ++ String.join (flds.map (fun h => "<th>" ++ text_type h ++ "</th>" ++ lineterminator))
    ++ "</tr>" ++ lineterminator
    ++ "</thead>" ++ lineterminator
    ++ "<tbody>" ++ lineterminator

/-- Translation of `_write_end`: the text written after the data rows. -/
def _write_end (lineterminator : String) : String :=
  "</tbody>" ++ lineterminator ++ "</table>" ++ lineterminator

/-- One iteration of the cell loop in `_write_row_unicode`; the source
duplicates the cell logic of `_write_row` verbatim. -/
def _write_cell_unicode (v : Value) (lineterminator : String) (rep : Value → String) : String :=
  let r := rep v
  if isNumberType v && !(isBoolType v) then
    "<td style='text-align: right'>" ++ r ++ "</td>" ++ lineterminator
  else
    "<td>" ++ r ++ "</td>" ++ lineterminator

/-- Translation of `_write_row_unicode`. -/
def _write_row_unicode (row : List Value) (lineterminator : String) (rep : Value → String) :
    String :=
  "<tr>" ++ lineterminator
    ++ String.join (row.map (fun v => _write_cell_unicode v lineterminator rep))
    ++ "</tr>" ++ lineterminator

/-- A single-pass row iterator: it yields `rows` in order and then either
ends normally (`err = none`) or raises `err`'s exception on the next pull.
A plain in-memory table is the case `err = none`. -/
structure TableIter where
  rows : List (List Value)
  err : Option PyError

/-- Outcome of running a renderer inside `with source.open_('w') as f`:
the result (normal completion or the propagated exception), everything
written to the handle before exit, and whether the open scope's cleanup
ran on the exit path taken. -/
structure RunOutcome where
  result : Except PyError Unit
  written : String
  closed : Bool

/-- The `with` statement's exit discipline applied to a body outcome: on
normal completion the scope's cleanup runs and the value is returned; on an
exception the cleanup still runs and the same exception propagates. -/
def withScope : Except PyError Unit × String → RunOutcome
  | (Except.ok u, w) => { result := Except.ok u, written := w, closed := true }
  | (Except.error e, w) => { result := Except.error e, written := w, closed := true }

/-- The `for row in it` loop of `tohtml`: each remaining row is written,
then the next pull either ends the loop (writing the footer afterwards) or
raises the iterator's error. -/
def writeRowsIter :
    List (List Value) → Option PyError → String → (Value → String) →
      Except PyError Unit × String
  | [], some e, _, _ => (Except.error e, "")
  | [], none, lt, _ => (Except.ok (), _write_end lt)
  | r :: rest, e, lt, rep =>
    let p := writeRowsIter rest e lt rep
    (p.1, _write_row r lt rep ++ p.2)

/-- Body of `tohtml` between open and close: pull the header with `next`
(raising the iterator's error, or `StopIteration` on an empty table), write
the heading, then run the row loop. -/
def tohtmlBody (t : TableIter) (caption : Option String) (rep : Value → String) (lt : String) :
    Except PyError Unit × String :=
  match t.rows, t.err with
  | [], some e => (Except.error e, "")
  | [], none => (Except.error PyError.stopIteration, "")
  | flds :: rest, e =>
    let p := writeRowsIter rest e lt rep
    (p.1, _write_begin flds lt caption ++ p.2)

/-- Translation of `tohtml`: the body run under the write-opened scope. -/
def tohtml (t : TableIter) (caption : Option String) (rep : Value → String) (lt : String) :
    RunOutcome :=
  withScope (tohtmlBody t caption rep lt)

/-- The loop of `TeeHTMLContainer.__iter__`: each remaining row is written
and then yielded; the pull after the last row either ends the generator
(writing the footer) or raises the iterator's error. The first component
collects the rows yielded before exit. -/
def teeRowsIter :
    List (List Value) → Option PyError → String → (Value → String) →
      List (List Value) × (Except PyError Unit × String)
  | [], some e, _, _ => ([], (Except.error e, ""))
  | [], none, lt, _ => ([], (Except.ok (), _write_end lt))
  | r :: rest, e, lt, rep =>
    let p := teeRowsIter rest e lt rep
    (r :: p.1, (p.2.1, _write_row r lt rep ++ p.2.2))

/-- Translation of `TeeHTMLContainer.__iter__`, consumed to exhaustion:
the header row is pulled and yielded after the heading is written, then the
tee loop runs; the whole body executes under the write-opened scope. -/
def teehtmlIter (t : TableIter) (caption : Option String) (rep : Value → String) (lt : String) :
    List (List Value) × RunOutcome :=
  match t.rows, t.err with
  | [], some e => ([], withScope (Except.error e, ""))
  | [], none => ([], withScope (Except.error PyError.stopIteration, ""))
  | flds :: rest, e =>
    let p := teeRowsIter rest e lt rep
    (flds :: p.1, withScope (p.2.1, _write_begin flds lt caption ++ p.2.2))

/-- Both exit paths of a `with` scope run the cleanup and pass the body's
outcome through. -/
theorem withScope_eq (p : Except PyError Unit × String) :
    withScope p = { result := p.1, written := p.2, closed := true } := by
  obtain ⟨a, w⟩ := p
  cases a <;> rfl

/-- The tee loop yields exactly the remaining rows when iteration ends
normally. -/
theorem teeRowsIter_fst (rows : List (List Value)) (lt : String) (rep : Value → String) :
    (teeRowsIter rows none lt rep).1 = rows := by
  induction rows with
  | nil => rfl
  | cons r rest ih => simp [teeRowsIter, ih]

/-- The tee loop writes exactly what the eager row loop writes and finishes
with the same outcome. -/
theorem teeRowsIter_snd (rows : List (List Value)) (e : Option PyError) (lt : String)
    (rep : Value → String) :
    (teeRowsIter rows e lt rep).2 = writeRowsIter rows e lt rep := by
  induction rows with
  | nil => cases e <;> rfl
  | cons r rest ih => simp [teeRowsIter, writeRowsIter, ih]

/-- The eager row loop completes normally when iteration ends normally. -/
theorem writeRowsIter_ok (rows : List (List Value)) (lt : String) (rep : Value → String) :
    (writeRowsIter rows none lt rep).1 = Except.ok () := by
  induction rows with
  | nil => rfl
  | cons r rest ih => simp [writeRowsIter, ih]

/-- The eager row loop propagates the iterator's exception. -/
theorem writeRowsIter_err (rows : List (List Value)) (e : PyError) (lt : String)
    (rep : Value → String) :
    (writeRowsIter rows (some e) lt rep).1 = Except.error e := by
  induction rows with
  | nil => rfl
  | cons r rest ih => simp [writeRowsIter, ih]

/-- C4: for every header row, data rows and identical caption, representation
and line-terminator options, iterating the table returned by `teehtml` to
exhaustion yields every input row unchanged (header first, data rows in
original order, exactly once each) and completes normally, and the document
it writes to the target is byte-identical to the document `tohtml` writes
for the same input and options. -/
theorem teehtml_refines_tohtml (flds : List Value) (rows : List (List Value))
    (caption : Option String) (rep : Value → String) (lt : String) :
    (teehtmlIter ⟨flds :: rows, none⟩ caption rep lt).1 = flds :: rows
    ∧ (teehtmlIter ⟨flds :: rows, none⟩ caption rep lt).2.written
        = (tohtml ⟨flds :: rows, none⟩ caption rep lt).written
    ∧ (teehtmlIter ⟨flds :: rows, none⟩ caption rep lt).2.result = Except.ok ()
    ∧ (tohtml ⟨flds :: rows, none⟩ caption rep lt).result = Except.ok () := by
  simp [teehtmlIter, tohtml, tohtmlBody, withScope_eq, teeRowsIter_fst, teeRowsIter_snd,
    writeRowsIter_ok]

/-- C8: when pulling rows raises an exception part-way through rendering
(modelled by an iterator that raises `e` after its rows), both the eager
renderer and the tee renderer propagate that same exception to the caller,
and on that error exit path the open scope's cleanup still runs. -/
theorem render_error_path_closes (rows : List (List Value)) (e : PyError)
    (caption : Option String) (rep : Value → String) (lt : String) :
    (tohtml ⟨rows, some e⟩ caption rep lt).result = Except.error e
    ∧ (tohtml ⟨rows, some e⟩ caption rep lt).closed = true
    ∧ (teehtmlIter ⟨rows, some e⟩ caption rep lt).2.result = Except.error e
    ∧ (teehtmlIter ⟨rows, some e⟩ caption rep lt).2.closed = true := by
  cases rows with
  | nil => simp [tohtml, tohtmlBody, teehtmlIter, withScope_eq]
  | cons flds rest =>
    simp [tohtml, tohtmlBody, teehtmlIter, withScope_eq, teeRowsIter_snd, writeRowsIter_err]

set_option maxRecDepth 8000

/-- The example table of the specification: a header row `foo`, `bar` and
two data rows. -/
def sampleRows : List (List Value) :=
  [[Value.str "foo", Value.str "bar"], [Value.str "a", Value.int 1], [Value.str "b", Value.int 2]]

/-- C5: rendering the sample rows with `tohtml` and default options writes a
document in which every line is terminated with the default terminator
CRLF (the join equality lists the lines in order), that opens with the
table tag with class `petl`, whose header section holds the cells `foo`
then `bar` in that order, whose first body row is the plain cell for `a`
followed by the right-aligned cell for `1`, and that ends with the closing
body tag followed by the closing table tag. -/
theorem tohtml_sample_document :
    (tohtml ⟨sampleRows, none⟩ none text_type "\r\n").written
      = String.join
          (["<table class='petl'>", "<thead>", "<tr>", "<th>foo</th>", "<th>bar</th>",
            "</tr>", "</thead>", "<tbody>",
            "<tr>", "<td>a</td>", "<td style='text-align: right'>1</td>", "</tr>",
            "<tr>", "<td>b</td>", "<td style='text-align: right'>2</td>", "</tr>",
            "</tbody>", "</table>"].map (fun l => l ++ "\r\n"))
    ∧ (∃ rest, (tohtml ⟨sampleRows, none⟩ none text_type "\r\n").written
        = "<table class='petl'>" ++ rest)
    ∧ (∃ a b c, (tohtml ⟨sampleRows, none⟩ none text_type "\r\n").written
        = a ++ "<th>foo</th>" ++ b ++ "<th>bar</th>" ++ c)
    ∧ (∃ d f, (tohtml ⟨sampleRows, none⟩ none text_type "\r\n").written
        = d ++ "<tr>\r\n<td>a</td>\r\n<td style='text-align: right'>1</td>\r\n</tr>\r\n" ++ f)
    ∧ (∃ pre, (tohtml ⟨sampleRows, none⟩ none text_type "\r\n").written
        = pre ++ ("</tbody>" ++ "\r\n" ++ "</table>" ++ "\r\n")) := by
  refine ⟨rfl,
    ⟨"\r\n<thead>\r\n<tr>\r\n<th>foo</th>\r\n<th>bar</th>\r\n</tr>\r\n</thead>\r\n<tbody>\r\n<tr>\r\n<td>a</td>\r\n<td style='text-align: right'>1</td>\r\n</tr>\r\n<tr>\r\n<td>b</td>\r\n<td style='text-align: right'>2</td>\r\n</tr>\r\n</tbody>\r\n</table>\r\n", rfl⟩,
    ⟨"<table class='petl'>\r\n<thead>\r\n<tr>\r\n", "\r\n",
     "\r\n</tr>\r\n</thead>\r\n<tbody>\r\n<tr>\r\n<td>a</td>\r\n<td style='text-align: right'>1</td>\r\n</tr>\r\n<tr>\r\n<td>b</td>\r\n<td style='text-align: right'>2</td>\r\n</tr>\r\n</tbody>\r\n</table>\r\n", rfl⟩,
    ⟨"<table class='petl'>\r\n<thead>\r\n<tr>\r\n<th>foo</th>\r\n<th>bar</th>\r\n</tr>\r\n</thead>\r\n<tbody>\r\n",
     "<tr>\r\n<td>b</td>\r\n<td style='text-align: right'>2</td>\r\n</tr>\r\n</tbody>\r\n</table>\r\n", rfl⟩,
    ⟨"<table class='petl'>\r\n<thead>\r\n<tr>\r\n<th>foo</th>\r\n<th>bar</th>\r\n</tr>\r\n</thead>\r\n<tbody>\r\n<tr>\r\n<td>a</td>\r\n<td style='text-align: right'>1</td>\r\n</tr>\r\n<tr>\r\n<td>b</td>\r\n<td style='text-align: right'>2</td>\r\n</tr>\r\n", rfl⟩⟩

/-- C6: a boolean-valued cell is emitted plain (never right-aligned) by the
cell logic shared by the eager and tee renderers, in both the plain and the
unicode writer, even though booleans satisfy the numeric-type check; a
string cell is also plain, and a (non-boolean) integer cell is the only
right-aligned one. -/
theorem bool_cells_never_right_aligned (lt : String) (rep : Value → String) :
    (∀ b, _write_cell (Value.bool b) lt rep
        = "<td>" ++ rep (Value.bool b) ++ "</td>" ++ lt)
    ∧ (∀ b, _write_cell_unicode (Value.bool b) lt rep
        = "<td>" ++ rep (Value.bool b) ++ "</td>" ++ lt)
    ∧ (∀ b, isNumberType (Value.bool b) = true)
    ∧ (∀ s, _write_cell (Value.str s) lt rep
        = "<td>" ++ rep (Value.str s) ++ "</td>" ++ lt)
    ∧ (∀ s, _write_cell_unicode (Value.str s) lt rep
        = "<td>" ++ rep (Value.str s) ++ "</td>" ++ lt)
    ∧ (∀ n, _write_cell (Value.int n) lt rep
        = "<td style='text-align: right'>" ++ rep (Value.int n) ++ "</td>" ++ lt)
    ∧ (∀ n, _write_cell_unicode (Value.int n) lt rep
        = "<td style='text-align: right'>" ++ rep (Value.int n) ++ "</td>" ++ lt) := by
  refine ⟨fun b => rfl, fun b => rfl, fun b => rfl, fun s => rfl, fun s => rfl,
    fun n => rfl, fun n => rfl⟩

/-- C1 at the failing input: opening a `StringSource` that has no backing
buffer yet in append mode does not create a fresh buffer; the code evaluates
membership in `self.buffer`, which is `None`, and so raises `TypeError`.
Reusing an existing buffer (the claim's first half) does hold. -/
theorem append_open_without_buffer_raises :
    StringSource.open_ ⟨none, none⟩ "a" = Except.error PyError.typeErrorNotIterable
    ∧ StringSource.open_ ⟨some ['q'], none⟩ "a" = Except.error PyError.typeErrorNotIterable
    ∧ (∀ (s0 : Option (List Char)) (k : BufKind) (c : List Char) (p : Nat),
        StringSource.open_ ⟨s0, some ⟨k, c, p⟩⟩ "a" = Except.ok ⟨s0, some ⟨k, c, p⟩⟩)
    ∧ StringSource.open_ ⟨none, none⟩ "ab" = Except.error PyError.typeErrorNotIterable := by
  refine ⟨rfl, rfl, fun s0 k c p => rfl, rfl⟩

/-- C2 counterexample: a URL-prefixed string with a compression suffix does
not resolve to a plain-file target for writing; `write_source_from_arg`
applies the suffix rules to it and returns a gzip target. -/
theorem write_url_prefixed_not_plain_file :
    write_source_from_arg (SourceArg.strArg "http://x.gz")
      = Except.ok (Source.gzipSource "http://x.gz")
    ∧ write_source_from_arg (SourceArg.strArg "http://x.gz")
        ≠ Except.ok (Source.fileSource "http://x.gz") := by
  refine ⟨rfl, ?_⟩
  intro h
  rw [show write_source_from_arg (SourceArg.strArg "http://x.gz")
      = Except.ok (Source.gzipSource "http://x.gz") from rfl] at h
  injection h with h2
  exact Source.noConfusion h2

/-- C2 (amended): `read_source_from_arg` resolves a string to a URL target
when it carries a URL prefix, otherwise to a gzip target on a `.gz`/`.bgz`
suffix, otherwise to a bzip2 target on a `.bz2` suffix, otherwise to a
plain-file target; `write_source_from_arg` applies the same suffix rules
but does not recognize URL prefixes, so URL-prefixed strings fall through
to the suffix rules and resolve to a plain-file target when no compression
suffix matches; an absent argument resolves to standard input for reading
and standard output for writing. -/
theorem source_arg_resolution (s : String) :
    ((strStartsWith s "http://" || strStartsWith s "https://" || strStartsWith s "ftp://") = true →
      read_source_from_arg (SourceArg.strArg s) = Except.ok (Source.urlSource s))
    ∧ ((strStartsWith s "http://" || strStartsWith s "https://" || strStartsWith s "ftp://")
          = false →
        (strEndsWith s ".gz" || strEndsWith s ".bgz") = true →
        read_source_from_arg (SourceArg.strArg s) = Except.ok (Source.gzipSource s))
    ∧ ((strStartsWith s "http://" || strStartsWith s "https://" || strStartsWith s "ftp://")
          = false →
        (strEndsWith s ".gz" || strEndsWith s ".bgz") = false →
        strEndsWith s ".bz2" = true →
        read_source_from_arg (SourceArg.strArg s) = Except.ok (Source.bz2Source s))
    ∧ ((strStartsWith s "http://" || strStartsWith s "https://" || strStartsWith s "ftp://")
          = false →
        (strEndsWith s ".gz" || strEndsWith s ".bgz") = false →
        strEndsWith s ".bz2" = false →
        read_source_from_arg (SourceArg.strArg s) = Except.ok (Source.fileSource s))
    ∧ ((strEndsWith s ".gz" || strEndsWith s ".bgz") = true →
        write_source_from_arg (SourceArg.strArg s) = Except.ok (Source.gzipSource s))
    ∧ ((strEndsWith s ".gz" || strEndsWith s ".bgz") = false →
        strEndsWith s ".bz2" = true →
        write_source_from_arg (SourceArg.strArg s) = Except.ok (Source.bz2Source s))
    ∧ ((strEndsWith s ".gz" || strEndsWith s ".bgz") = false →
        strEndsWith s ".bz2" = false →
        write_source_from_arg (SourceArg.strArg s) = Except.ok (Source.fileSource s))
    ∧ read_source_from_arg SourceArg.noneArg = Except.ok Source.stdinSource
    ∧ write_source_from_arg SourceArg.noneArg = Except.ok Source.stdoutSource := by
  refine ⟨fun h1 => by simp [read_source_from_arg, h1],
    fun h1 h2 => by simp [read_source_from_arg, h1, h2],
    fun h1 h2 h3 => by simp [read_source_from_arg, h1, h2, h3],
    fun h1 h2 h3 => by simp [read_source_from_arg, h1, h2, h3],
    fun h2 => by simp [write_source_from_arg, h2],
    fun h2 h3 => by simp [write_source_from_arg, h2, h3],
    fun h2 h3 => by simp [write_source_from_arg, h2, h3],
    rfl, rfl⟩

/-- Witness for C2: each resolution branch at a concrete argument. -/
theorem source_arg_resolution_witness :
    read_source_from_arg (SourceArg.strArg "http://h") = Except.ok (Source.urlSource "http://h")
    ∧ read_source_from_arg (SourceArg.strArg "a.gz") = Except.ok (Source.gzipSource "a.gz")
    ∧ read_source_from_arg (SourceArg.strArg "a.bz2") = Except.ok (Source.bz2Source "a.bz2")
    ∧ read_source_from_arg (SourceArg.strArg "a.txt") = Except.ok (Source.fileSource "a.txt")
    ∧ write_source_from_arg (SourceArg.strArg "a.bgz") = Except.ok (Source.gzipSource "a.bgz")
    ∧ write_source_from_arg (SourceArg.strArg "a.bz2") = Except.ok (Source.bz2Source "a.bz2")
    ∧ write_source_from_arg (SourceArg.strArg "http://h")
        = Except.ok (Source.fileSource "http://h")
    ∧ read_source_from_arg SourceArg.noneArg = Except.ok Source.stdinSource
    ∧ write_source_from_arg SourceArg.noneArg = Except.ok Source.stdoutSource :=
  ⟨(source_arg_resolution "http://h").1 rfl,
   (source_arg_resolution "a.gz").2.1 rfl rfl,
   (source_arg_resolution "a.bz2").2.2.1 rfl rfl rfl,
   (source_arg_resolution "a.txt").2.2.2.1 rfl rfl rfl,
   (source_arg_resolution "a.bgz").2.2.2.2.1 rfl,
   (source_arg_resolution "a.bz2").2.2.2.2.2.1 rfl rfl,
   (source_arg_resolution "http://h").2.2.2.2.2.2.1 rfl rfl,
   (source_arg_resolution "x").2.2.2.2.2.2.2.1,
   (source_arg_resolution "x").2.2.2.2.2.2.2.2⟩

/-- C3: the read-only targets raise the documented error on any non-read
mode and yield their stream on a read mode; the write-only target raises
the documented error on any read mode and yields its stream otherwise; a
`StringSource` with no pre-supplied content raises the documented no-data
error on any read mode. -/
theorem mode_validation (mode : String) :
    (strStartsWith mode "r" = false →
      StdinSource.open_ mode = Except.error PyError.sourceReadOnly)
    ∧ (strStartsWith mode "r" = true → StdinSource.open_ mode = Except.ok StdHandle.stdinH)
    ∧ (strStartsWith mode "r" = true →
        StdoutSource.open_ mode = Except.error PyError.sourceWriteOnly)
    ∧ (strStartsWith mode "r" = false → StdoutSource.open_ mode = Except.ok StdHandle.stdoutH)
    ∧ (strStartsWith mode "r" = false →
        URLSource.open_ mode = Except.error PyError.sourceReadOnly)
    ∧ (strStartsWith mode "r" = true → URLSource.open_ mode = Except.ok StdHandle.urlH)
    ∧ (∀ buf, strContains mode 'r' = true →
        StringSource.open_ ⟨none, buf⟩ mode = Except.error PyError.noStringData) := by
  refine ⟨fun h => by simp [StdinSource.open_, h],
    fun h => by simp [StdinSource.open_, h],
    fun h => by simp [StdoutSource.open_, h],
    fun h => by simp [StdoutSource.open_, h],
    fun h => by simp [URLSource.open_, h],
    fun h => by simp [URLSource.open_, h],
    fun buf h => by simp [StringSource.open_, h]⟩

/-- Witness for C3: each validation branch at a concrete mode. -/
theorem mode_validation_witness :
    StdinSource.open_ "w" = Except.error PyError.sourceReadOnly
    ∧ StdinSource.open_ "r" = Except.ok StdHandle.stdinH
    ∧ StdoutSource.open_ "r" = Except.error PyError.sourceWriteOnly
    ∧ StdoutSource.open_ "w" = Except.ok StdHandle.stdoutH
    ∧ URLSource.open_ "a" = Except.error PyError.sourceReadOnly
    ∧ URLSource.open_ "rb" = Except.ok StdHandle.urlH
    ∧ StringSource.open_ ⟨none, none⟩ "rb" = Except.error PyError.noStringData :=
  ⟨(mode_validation "w").1 rfl,
   (mode_validation "r").2.1 rfl,
   (mode_validation "r").2.2.1 rfl,
   (mode_validation "w").2.2.2.1 rfl,
   (mode_validation "a").2.2.2.2.1 rfl,
   (mode_validation "rb").2.2.2.2.2.1 rfl,
   (mode_validation "rb").2.2.2.2.2.2 none rfl⟩

/-- C9: a non-absent, non-string argument exposing a callable open
capability is returned unchanged by both factory functions; otherwise both
fail with the invalid-argument error, whose message ends with the offending
value's representation. -/
theorem custom_object_sources (o : ObjValue) :
    (o.hasCallableOpenAttr = true →
      read_source_from_arg (SourceArg.objArg o) = Except.ok (Source.objSource o)
      ∧ write_source_from_arg (SourceArg.objArg o) = Except.ok (Source.objSource o))
    ∧ (o.hasCallableOpenAttr = false →
      read_source_from_arg (SourceArg.objArg o) = Except.error (invalid_source_msg o.reprStr)
      ∧ write_source_from_arg (SourceArg.objArg o)
          = Except.error (invalid_source_msg o.reprStr))
    ∧ (∃ pre, invalid_source_msg o.reprStr = pre ++ o.reprStr) := by
  refine ⟨fun h => by simp [read_source_from_arg, write_source_from_arg, h],
    fun h => by simp [read_source_from_arg, write_source_from_arg, h],
    ⟨"invalid source argument, expected None or a string or an object implementing open_(), found ",
     rfl⟩⟩

/-- Witness for C9: both outcomes at concrete objects. -/
theorem custom_object_sources_witness :
    read_source_from_arg (SourceArg.objArg ⟨true, "X"⟩)
      = Except.ok (Source.objSource ⟨true, "X"⟩)
    ∧ read_source_from_arg (SourceArg.objArg ⟨false, "X"⟩)
        = Except.error (invalid_source_msg "X") :=
  ⟨((custom_object_sources ⟨true, "X"⟩).1 rfl).1,
   ((custom_object_sources ⟨false, "X"⟩).2.1 rfl).1⟩

/-- C10: a read-mode open rebuilds the yielded buffer solely from the
string supplied at construction, discarding whatever buffer is present;
with no construction string every read-mode open raises the no-data error
whatever the buffer holds; and `getvalue` returns no value when no buffer
has ever been created. -/
theorem string_source_read_isolated (mode : String) (buf : Option Buffer) :
    (strContains mode 'r' = true →
      StringSource.open_ ⟨none, buf⟩ mode = Except.error PyError.noStringData)
    ∧ (∀ s0, strContains mode 'r' = true →
        StringSource.open_ ⟨some s0, buf⟩ mode
          = Except.ok ⟨some s0,
              some ⟨if strContains mode 'b' then BufKind.bytesIO else BufKind.stringIO, s0, 0⟩⟩)
    ∧ (∀ s1, StringSource.getvalue ⟨s1, none⟩ = none) := by
  refine ⟨fun h => by simp [StringSource.open_, h], fun s0 h => ?_, fun s1 => rfl⟩
  by_cases hb : strContains mode 'b' = true
  · simp [StringSource.open_, h, hb]
  · simp [StringSource.open_, h, hb]

/-- Witness for C10: a read open at a concrete instance whose buffer holds
previously written content still raises, and a concrete rebuild from the
construction string. -/
theorem string_source_read_isolated_witness :
    StringSource.open_ ⟨none, some ⟨BufKind.stringIO, ['z'], 1⟩⟩ "r"
      = Except.error PyError.noStringData
    ∧ StringSource.open_ ⟨some ['q'], some ⟨BufKind.stringIO, ['z'], 1⟩⟩ "r"
        = Except.ok ⟨some ['q'], some ⟨BufKind.stringIO, ['q'], 0⟩⟩
    ∧ StringSource.getvalue ⟨some ['q'], none⟩ = none :=
  ⟨(string_source_read_isolated "r" (some ⟨BufKind.stringIO, ['z'], 1⟩)).1 rfl,
   (string_source_read_isolated "r" (some ⟨BufKind.stringIO, ['z'], 1⟩)).2.1 ['q'] rfl,
   (string_source_read_isolated "r" none).2.2 (some ['q'])⟩

/-- Writing at the end of a buffer appends the data and keeps the position
at the end. -/
theorem Buffer.write_at_end (k : BufKind) (c d : List Char) :
    Buffer.write ⟨k, c, c.length⟩ d = ⟨k, c ++ d, (c ++ d).length⟩ := by
  simp [Buffer.write, List.take_length, List.drop_eq_nil_of_le (Nat.le_add_right _ _)]

/-- C7: opening a `StringSource` in a write mode and writing content makes
`getvalue` return exactly that content after the scope exits; opening the
same instance again in an append mode reuses the buffer unchanged, and
writing further content makes `getvalue` return the earlier content as a
prefix followed by the appended content. -/
theorem string_source_write_append_roundtrip (src st1 : StringSource) (mw ma : String)
    (c1 c2 : List Char)
    (hwr : strContains mw 'r' = false) (hww : strContains mw 'w' = true)
    (har : strContains ma 'r' = false) (haw : strContains ma 'w' = false)
    (haa : strContains ma 'a' = true)
    (hopen : src.open_ mw = Except.ok st1) :
    (st1.write c1).getvalue = some c1
    ∧ (st1.write c1).open_ ma = Except.ok (st1.write c1)
    ∧ ((st1.write c1).write c2).getvalue = some (c1 ++ c2) := by
  rw [StringSource.open_] at hopen
  rw [hwr, hww] at hopen
  cases hb : strContains mw 'b' <;> rw [hb] at hopen <;> simp at hopen <;> subst hopen <;>
    refine ⟨?_, ?_, ?_⟩
  · simp [StringSource.write, StringSource.getvalue, Buffer.write, Buffer.getvalue]
  · rw [StringSource.open_]
    simp [har, haw, haa, StringSource.write]
  · simp [StringSource.write, StringSource.getvalue, Buffer.getvalue, Buffer.write,
      List.take_length, List.drop_eq_nil_of_le (Nat.le_add_right _ _)]
  · simp [StringSource.write, StringSource.getvalue, Buffer.write, Buffer.getvalue]
  · rw [StringSource.open_]
    simp [har, haw, haa, StringSource.write]
  · simp [StringSource.write, StringSource.getvalue, Buffer.getvalue, Buffer.write,
      List.take_length, List.drop_eq_nil_of_le (Nat.le_add_right _ _)]

/-- Witness for C7: the round-trip and append law at a concrete instance,
mode `w` then mode `a`, writing `x` then `y`. -/
theorem string_source_roundtrip_witness :
    ((StringSource.mk none (some ⟨BufKind.stringIO, [], 0⟩)).write ['x']).getvalue = some ['x']
    ∧ ((StringSource.mk none (some ⟨BufKind.stringIO, [], 0⟩)).write ['x']).open_ "a"
        = Except.ok ((StringSource.mk none (some ⟨BufKind.stringIO, [], 0⟩)).write ['x'])
    ∧ (((StringSource.mk none (some ⟨BufKind.stringIO, [], 0⟩)).write ['x']).write ['y']).getvalue
        = some (['x'] ++ ['y']) :=
  string_source_write_append_roundtrip ⟨none, none⟩ ⟨none, some ⟨BufKind.stringIO, [], 0⟩⟩
    "w" "a" ['x'] ['y'] rfl rfl rfl rfl rfl rfl
